import Mathlib

/-!
Verification development for the HyperwalletPublic repository.

The repository consists of one Python script, build/icons/create-icon.py,
which renders an application icon at several resolutions with the PIL
imaging library and writes the results as PNG files.

Shallow embedding conventions:
* Python integers are modelled by ℤ; Python floats by exact rationals ℚ.
  Every float constant in the script is a short decimal literal, and every
  float expression is a product or quotient of such literals with integers,
  so the exact-rational model matches the scripts double arithmetic at all
  inputs examined by the theorems below.
* Python int(x) truncates toward zero; this is pyInt.
* Python a // b is floor division; this is Int.fdiv.
* Each PIL drawing call is recorded as a DrawCmd value; a rendered image
  (Canvas) is its square side length plus the ordered list of drawing
  commands issued on it. Pixel rasterisation is not modelled; every claim
  below is about the geometric and colour data the script computes.
* Font loading can fail depending on which font files exist on the host;
  a FontEnv records which of the two truetype paths load. Text measurement
  (ImageDraw.textbbox) depends on the font actually loaded and is modelled
  by an arbitrary Metrics function from resolved fonts to bounding boxes.
-/

/-- Python int() applied to a rational value: truncation toward zero. -/
def pyInt (q : ℚ) : ℤ := q.num.tdiv q.den

/-- One RGBA colour tuple, channels as integers. -/
abbrev Color := ℤ × ℤ × ℤ × ℤ

/-- Result of ImageDraw.textbbox: left, top, right, bottom. -/
structure BBox where
  x0 : ℤ
  y0 : ℤ
  x1 : ℤ
  y1 : ℤ
deriving DecidableEq

/-- The font value the script ends up drawing with (create-icon.py lines 91-100):
either of the two truetype paths at the computed pixel size, or the PIL
built-in default bitmap font, which takes no size argument. -/
inductive Font where
  | truetypePrimary (fontSize : ℤ)
  | truetypeSecondary (fontSize : ℤ)
  | defaultFont
deriving DecidableEq

/-- Which of the two truetype font paths can be loaded on the host system.
This is the only environment dependence of the script other than the
output directory. -/
structure FontEnv where
  primary : Bool
  secondary : Bool
deriving DecidableEq

/-- Text-measurement outcome: the bounding box textbbox reports for the
glyph H under each font the chain can resolve to. A fixed font resource
measures deterministically, so this is a function of the resolved font. -/
abbrev Metrics := Font → BBox

/-- center = size // 2 (line 15). -/
def center (size : ℤ) : ℤ := size.fdiv 2

/-- radius = int(size * 0.45) (line 16). -/
def radius (size : ℤ) : ℤ := pyInt ((size : ℚ) * 0.45)

/-- The normalized ring fraction ratio = i / radius for ring index i (line 21). -/
def ringFrac (size i : ℤ) : ℚ := (i : ℚ) / (radius size : ℚ)

/-- r = int(99 + (139 - 99) * (1 - ratio)) (line 22). -/
def ringR (size i : ℤ) : ℤ := pyInt (99 + (139 - 99) * (1 - ringFrac size i))

/-- g = int(102 + (92 - 102) * (1 - ratio)) (line 23). -/
def ringG (size i : ℤ) : ℤ := pyInt (102 + (92 - 102) * (1 - ringFrac size i))

/-- b = int(241 + (246 - 241) * (1 - ratio)) (line 24). -/
def ringB (size i : ℤ) : ℤ := pyInt (241 + (246 - 241) * (1 - ringFrac size i))

/-- alpha = 255 if i > radius * 0.9 else int(255 * (i / (radius * 0.9))) (line 27). -/
def ringAlpha (size i : ℤ) : ℤ :=
  if (radius size : ℚ) * 0.9 < (i : ℚ) then 255
  else pyInt (255 * ((i : ℚ) / ((radius size : ℚ) * 0.9)))

/-- wallet_width = int(size * 0.5) (line 36). -/
def wallet_width (size : ℤ) : ℤ := pyInt ((size : ℚ) * 0.5)

/-- wallet_height = int(size * 0.375) (line 37). -/
def wallet_height (size : ℤ) : ℤ := pyInt ((size : ℚ) * 0.375)

/-- wallet_x = center - wallet_width // 2 (line 38). -/
def wallet_x (size : ℤ) : ℤ := center size - (wallet_width size).fdiv 2

/-- wallet_y = center - wallet_height // 2 + int(size * 0.05) (line 39). -/
def wallet_y (size : ℤ) : ℤ :=
  center size - (wallet_height size).fdiv 2 + pyInt ((size : ℚ) * 0.05)

/-- corner_radius = int(size * 0.03) (line 40). -/
def corner_radius (size : ℤ) : ℤ := pyInt ((size : ℚ) * 0.03)

/-- Vertical rise of the flap apex above the wallet top: int(size * 0.1) (line 57). -/
def flap_rise (size : ℤ) : ℤ := pyInt ((size : ℚ) * 0.1)

/-- line_y = wallet_y + int(size * 0.08) (line 63). -/
def line_y (size : ℤ) : ℤ := wallet_y size + pyInt ((size : ℚ) * 0.08)

/-- Seam line stroke width int(size * 0.008) (line 67). -/
def line_width (size : ℤ) : ℤ := pyInt ((size : ℚ) * 0.008)

/-- slot_width = int(wallet_width * 0.75) (line 71). -/
def slot_width (size : ℤ) : ℤ := pyInt ((wallet_width size : ℚ) * 0.75)

/-- slot_height = int(size * 0.047) (line 72). -/
def slot_height (size : ℤ) : ℤ := pyInt ((size : ℚ) * 0.047)

/-- slot_x = center - slot_width // 2 (line 73). -/
def slot_x (size : ℤ) : ℤ := center size - (slot_width size).fdiv 2

/-- slot_y1 = wallet_y + int(size * 0.16) (line 74). -/
def slot_y1 (size : ℤ) : ℤ := wallet_y size + pyInt ((size : ℚ) * 0.16)

/-- slot_y2 = wallet_y + int(size * 0.24) (line 75). -/
def slot_y2 (size : ℤ) : ℤ := wallet_y size + pyInt ((size : ℚ) * 0.24)

/-- Width of the second, narrower card slot: int(slot_width * 0.83) (line 84). -/
def slot2_width (size : ℤ) : ℤ := pyInt ((slot_width size : ℚ) * 0.83)

/-- font_size = int(size * 0.2) (line 93). -/
def font_size (size : ℤ) : ℤ := pyInt ((size : ℚ) * 0.2)

/-- The try/except/except chain of lines 91-100: the primary truetype path,
then the secondary truetype path, then ImageFont.load_default(), which
ignores the computed pixel size. The chain is total: it always yields a
font value. -/
def resolveFont (env : FontEnv) (size : ℤ) : Font :=
  if env.primary then Font.truetypePrimary (font_size size)
  else if env.secondary then Font.truetypeSecondary (font_size size)
  else Font.defaultFont

/-- text_width = bbox[2] - bbox[0] (lines 103-104). The script also computes
text_height = bbox[3] - bbox[1] but never uses it. -/
def text_width (size : ℤ) (env : FontEnv) (m : Metrics) : ℤ :=
  (m (resolveFont env size)).x1 - (m (resolveFont env size)).x0

/-- text_x = center - text_width // 2 (line 106). -/
def text_x (size : ℤ) (env : FontEnv) (m : Metrics) : ℤ :=
  center size - (text_width size env m).fdiv 2

/-- text_y = wallet_y + wallet_height + int(size * 0.08) (line 107). -/
def text_y (size : ℤ) : ℤ :=
  wallet_y size + wallet_height size + pyInt ((size : ℚ) * 0.08)

/-- shine_x = wallet_x + int(wallet_width * 0.2) (line 118). -/
def shine_x (size : ℤ) : ℤ := wallet_x size + pyInt ((wallet_width size : ℚ) * 0.2)

/-- shine_y = wallet_y + int(wallet_height * 0.15) (line 119). -/
def shine_y (size : ℤ) : ℤ := wallet_y size + pyInt ((wallet_height size : ℚ) * 0.15)

/-- shine_size = int(size * 0.12) (line 120). -/
def shine_size (size : ℤ) : ℤ := pyInt ((size : ℚ) * 0.12)

/-- Vertical extent of the shine ellipse: int(shine_size * 0.7) (line 122). -/
def shine_extent (size : ℤ) : ℤ := pyInt ((shine_size size : ℚ) * 0.7)

/-- One PIL ImageDraw call as issued by the script, with its arguments. -/
inductive DrawCmd where
  | ellipse (x0 y0 x1 y1 : ℤ) (fill : Color)
  | roundedRectangle (x0 y0 x1 y1 : ℤ) (rad : ℤ) (fill : Color)
  | polygon (pts : List (ℤ × ℤ)) (fill : Color)
  | line (x0 y0 x1 y1 : ℤ) (fill : Color) (width : ℤ)
  | text (x y : ℤ) (s : String) (fill : Color) (font : Font)
deriving DecidableEq

/-- The gradient ring draw.ellipse call for ring index i (lines 29-33). -/
def ringCmd (size i : ℤ) : DrawCmd :=
  DrawCmd.ellipse (center size - i) (center size - i) (center size + i) (center size + i)
    (ringR size i, ringG size i, ringB size i, ringAlpha size i)

/-- The loop for i in range(radius, 0, -1) (line 19): ring indices radius,
radius - 1, ..., 1; empty when radius is not positive. -/
def gradientCmds (size : ℤ) : List DrawCmd :=
  (List.range (radius size).toNat).map fun (k : ℕ) => ringCmd size (radius size - (k : ℤ))

/-- Every drawing call after the gradient loop, in source order
(lines 47-125): wallet body, flap polygon, seam line, two card slots,
the glyph H, the shine ellipse. -/
def foregroundCmds (size : ℤ) (env : FontEnv) (m : Metrics) : List DrawCmd :=
  [ DrawCmd.roundedRectangle (wallet_x size) (wallet_y size)
      (wallet_x size + wallet_width size) (wallet_y size + wallet_height size)
      (corner_radius size) (255, 255, 255, 240)
  , DrawCmd.polygon
      [ (wallet_x size, wallet_y size)
      , (center size, wallet_y size - flap_rise size)
      , (wallet_x size + wallet_width size, wallet_y size) ] (255, 255, 255, 220)
  , DrawCmd.line (wallet_x size) (line_y size) (wallet_x size + wallet_width size)
      (line_y size) (99, 102, 241, 100) (line_width size)
  , DrawCmd.roundedRectangle (slot_x size) (slot_y1 size)
      (slot_x size + slot_width size) (slot_y1 size + slot_height size)
      (pyInt ((size : ℚ) * 0.008)) (229, 231, 235, 150)
  , DrawCmd.roundedRectangle (slot_x size) (slot_y2 size)
      (slot_x size + slot2_width size) (slot_y2 size + slot_height size)
      (pyInt ((size : ℚ) * 0.008)) (229, 231, 235, 100)
  , DrawCmd.text (text_x size env m) (text_y size) "H" (99, 102, 241, 200)
      (resolveFont env size)
  , DrawCmd.ellipse (shine_x size) (shine_y size) (shine_x size + shine_size size)
      (shine_y size + shine_extent size) (255, 255, 255, 80) ]

/-- All drawing calls of one create_icon invocation, in issue order. -/
def iconCmds (size : ℤ) (env : FontEnv) (m : Metrics) : List DrawCmd :=
  gradientCmds size ++ foregroundCmds size env m

/-- An in-memory image: square side length and the drawing calls composited
onto it. -/
structure Canvas where
  width : ℤ
  height : ℤ
  cmds : List DrawCmd
deriving DecidableEq

/-- The error the imaging library raises for negative dimensions. -/
def pilSizeError : String := "ValueError: Width and height must be >= 0"

/-- Models the imaging library constructor Image.new(mode, (size, size))
called on line 11: it accepts any nonnegative dimensions, including zero,
and raises ValueError for negative ones. -/
def imageNew (size : ℤ) : Except String Canvas :=
  if size < 0 then Except.error pilSizeError
  else Except.ok { width := size, height := size, cmds := [] }

/-- create_icon(size) (lines 9-127): build the size-by-size canvas and issue
every drawing call on it. The script performs no size validation of its
own; the only failure point is the library constructor. -/
def create_icon (size : ℤ) (env : FontEnv) (m : Metrics) : Except String Canvas :=
  (imageNew size).map fun img => { img with cmds := iconCmds size env m }

/-- The square side lengths of a successful render, if any. -/
def renderedSize (r : Except String Canvas) : Option (ℤ × ℤ) :=
  r.toOption.map fun c => (c.width, c.height)

/-- One written PNG file: its name and the declared pixel dimensions the
serialised canvas carries. -/
structure Artifact where
  name : String
  declaredWidth : ℤ
  declaredHeight : ℤ
deriving DecidableEq

/-- Models icon.save(path, PNG, optimize=True) (lines 136 and 144): a PNG
artifact whose declared dimensions are exactly the dimensions of the
canvas being serialised. -/
def savePNG (name : String) (c : Canvas) : Artifact :=
  { name := name, declaredWidth := c.width, declaredHeight := c.height }

/-- File name for a secondary size (line 143). -/
def iconFileName (size : ℤ) : String :=
  "icon_" ++ toString size ++ "x" ++ toString size ++ ".png"

/-- The secondary size list of line 140. -/
def secondarySizes : List ℤ := [512, 256, 128, 64, 32, 16]

/-- main() (lines 129-145): render the primary 1024 icon to icon.png, then
each secondary size to its suffixed name, in list order. The returned list
records the written artifacts in write order. -/
def mainExport (env : FontEnv) (m : Metrics) : Except String (List Artifact) := do
  let icon ← create_icon 1024 env m
  let first := savePNG "icon.png" icon
  let rest ← secondarySizes.mapM fun size => do
    let c ← create_icon size env m
    pure (savePNG (iconFileName size) c)
  pure (first :: rest)

/-- Canvas containment check for one drawn coordinate: inside the pixel
index range of a size-S canvas. -/
def coordOk (S v : ℤ) : Bool := decide (0 ≤ v ∧ v < S)

/-- Containment of one drawing call in a size-S canvas. Box primitives
paint the whole closed bounding box, lines additionally bleed up to their
stroke width around the segment, so the check leaves a full stroke-width
margin. For the text call only the anchor row is checked: the painted
extent of the glyph depends on external font metrics, not on the script. -/
def cmdInBounds (S : ℤ) : DrawCmd → Bool
  | DrawCmd.ellipse x0 y0 x1 y1 _ =>
      coordOk S x0 && coordOk S y0 && coordOk S x1 && coordOk S y1
  | DrawCmd.roundedRectangle x0 y0 x1 y1 _ _ =>
      coordOk S x0 && coordOk S y0 && coordOk S x1 && coordOk S y1
  | DrawCmd.polygon pts _ =>
      pts.all fun p => coordOk S p.1 && coordOk S p.2
  | DrawCmd.line x0 y0 x1 y1 _ w =>
      coordOk S (x0 - w) && coordOk S (y0 - w) && coordOk S (x1 + w) && coordOk S (y1 + w)
  | DrawCmd.text _ y _ _ _ => coordOk S y

/-- Modelled from the spec: the expected export outcome of section 8 of the
spec, seven PNG artifacts with these names and declared dimensions. -/
def specExpectedArtifacts : List Artifact :=
  [ { name := "icon.png", declaredWidth := 1024, declaredHeight := 1024 }
  , { name := "icon_512x512.png", declaredWidth := 512, declaredHeight := 512 }
  , { name := "icon_256x256.png", declaredWidth := 256, declaredHeight := 256 }
  , { name := "icon_128x128.png", declaredWidth := 128, declaredHeight := 128 }
  , { name := "icon_64x64.png", declaredWidth := 64, declaredHeight := 64 }
  , { name := "icon_32x32.png", declaredWidth := 32, declaredHeight := 32 }
  , { name := "icon_16x16.png", declaredWidth := 16, declaredHeight := 16 } ]

/-- Modelled from the spec: linear interpolation between channel values c1
(at the edge) and c2 (toward the center) at blend amount t, channels
truncated to integers, as section 4.1 step 1 of the spec describes. -/
def lerpChannel (c1 c2 : ℤ) (t : ℚ) : ℤ :=
  pyInt ((1 - t) * (c1 : ℚ) + t * (c2 : ℚ))

/-- An environment on which neither truetype path loads. -/
def noFontEnv : FontEnv := { primary := false, secondary := false }

/-- A trivial metrics function used to instantiate witnesses. -/
def zeroMetrics : Metrics := fun _ => { x0 := 0, y0 := 0, x1 := 0, y1 := 0 }

/-- Truncation toward zero agrees with the floor on nonnegative arguments. -/
theorem pyInt_eq_floor {q : ℚ} (h : 0 ≤ q) : pyInt q = ⌊q⌋ := by
  unfold pyInt
  rw [Int.tdiv_eq_ediv (Rat.num_nonneg.mpr h) (Int.natCast_nonneg _)]
  exact Rat.floor_def.symm

/-- pyInt preserves nonnegativity. -/
theorem pyInt_nonneg {q : ℚ} (h : 0 ≤ q) : 0 ≤ pyInt q := by
  rw [pyInt_eq_floor h]; exact Int.floor_nonneg.mpr h

/-- pyInt is a lower truncation on nonnegative arguments. -/
theorem pyInt_le {q : ℚ} (h : 0 ≤ q) : (pyInt q : ℚ) ≤ q := by
  rw [pyInt_eq_floor h]; exact Int.floor_le q

/-- pyInt loses less than one on nonnegative arguments. -/
theorem sub_one_lt_pyInt {q : ℚ} (h : 0 ≤ q) : q - 1 < (pyInt q : ℚ) := by
  rw [pyInt_eq_floor h]; exact Int.sub_one_lt_floor q

/-- pyInt is monotone on nonnegative arguments. -/
theorem pyInt_mono {p q : ℚ} (hp : 0 ≤ p) (hpq : p ≤ q) : pyInt p ≤ pyInt q := by
  rw [pyInt_eq_floor hp, pyInt_eq_floor (hp.trans hpq)]
  exact Int.floor_le_floor hpq

/-- pyInt of an integer is that integer. -/
theorem pyInt_intCast (n : ℤ) : pyInt (n : ℚ) = n := by
  unfold pyInt
  rw [Rat.num_intCast, Rat.den_intCast]
  exact Int.tdiv_one n

/-- Evaluating pyInt of a nonnegative integer times a nonnegative ratio as
an integer division. -/
theorem pyInt_cast_mul (n a : ℤ) (d : ℕ) (q : ℚ) (hn : 0 ≤ n) (ha : 0 ≤ a)
    (hq : q = (a : ℚ) / (d : ℚ)) : pyInt ((n : ℚ) * q) = a * n / (d : ℤ) := by
  subst hq
  have h1 : (n : ℚ) * ((a : ℚ) / (d : ℚ)) = ((a * n : ℤ) : ℚ) / ((d : ℕ) : ℚ) := by
    push_cast; ring
  have h2 : (0 : ℚ) ≤ ((a * n : ℤ) : ℚ) / ((d : ℕ) : ℚ) := by
    apply div_nonneg
    · exact_mod_cast mul_nonneg ha hn
    · positivity
  rw [h1, pyInt_eq_floor h2, Rat.floor_intCast_div_natCast]

theorem center_div (S : ℤ) : center S = S / 2 := Int.fdiv_eq_ediv S (by norm_num)

theorem radius_div {S : ℤ} (h : 0 ≤ S) : radius S = 9 * S / 20 :=
  pyInt_cast_mul S 9 20 0.45 h (by norm_num) (by norm_num)

theorem wallet_width_div {S : ℤ} (h : 0 ≤ S) : wallet_width S = S / 2 := by
  simpa using pyInt_cast_mul S 1 2 0.5 h (by norm_num) (by norm_num)

theorem wallet_height_div {S : ℤ} (h : 0 ≤ S) : wallet_height S = 3 * S / 8 :=
  pyInt_cast_mul S 3 8 0.375 h (by norm_num) (by norm_num)

theorem wallet_x_div {S : ℤ} (h : 0 ≤ S) : wallet_x S = S / 2 - S / 2 / 2 := by
  unfold wallet_x
  rw [center_div, wallet_width_div h, Int.fdiv_eq_ediv _ (by norm_num)]

theorem wallet_y_div {S : ℤ} (h : 0 ≤ S) :
    wallet_y S = S / 2 - 3 * S / 8 / 2 + S / 20 := by
  unfold wallet_y
  rw [center_div, wallet_height_div h, Int.fdiv_eq_ediv _ (by norm_num),
    show pyInt ((S : ℚ) * 0.05) = S / 20 by
      simpa using pyInt_cast_mul S 1 20 0.05 h (by norm_num) (by norm_num)]

theorem flap_rise_div {S : ℤ} (h : 0 ≤ S) : flap_rise S = S / 10 := by
  simpa using pyInt_cast_mul S 1 10 0.1 h (by norm_num) (by norm_num)

theorem line_y_div {S : ℤ} (h : 0 ≤ S) : line_y S = wallet_y S + 2 * S / 25 := by
  unfold line_y
  rw [pyInt_cast_mul S 2 25 0.08 h (by norm_num) (by norm_num)]
  norm_num

theorem line_width_div {S : ℤ} (h : 0 ≤ S) : line_width S = S / 125 := by
  simpa using pyInt_cast_mul S 1 125 0.008 h (by norm_num) (by norm_num)

theorem slot_width_div {S : ℤ} (h : 0 ≤ S) : slot_width S = 3 * (S / 2) / 4 := by
  unfold slot_width
  rw [wallet_width_div h]
  exact pyInt_cast_mul (S / 2) 3 4 0.75 (by omega) (by norm_num) (by norm_num)

theorem slot_height_div {S : ℤ} (h : 0 ≤ S) : slot_height S = 47 * S / 1000 :=
  pyInt_cast_mul S 47 1000 0.047 h (by norm_num) (by norm_num)

theorem slot_x_div {S : ℤ} (h : 0 ≤ S) : slot_x S = S / 2 - 3 * (S / 2) / 4 / 2 := by
  unfold slot_x
  rw [center_div, slot_width_div h, Int.fdiv_eq_ediv _ (by norm_num)]

theorem slot_y1_div {S : ℤ} (h : 0 ≤ S) : slot_y1 S = wallet_y S + 4 * S / 25 := by
  unfold slot_y1
  rw [pyInt_cast_mul S 4 25 0.16 h (by norm_num) (by norm_num)]
  norm_num

theorem slot_y2_div {S : ℤ} (h : 0 ≤ S) : slot_y2 S = wallet_y S + 6 * S / 25 := by
  unfold slot_y2
  rw [pyInt_cast_mul S 6 25 0.24 h (by norm_num) (by norm_num)]
  norm_num

theorem slot2_width_div {S : ℤ} (h : 0 ≤ S) :
    slot2_width S = 83 * (3 * (S / 2) / 4) / 100 := by
  unfold slot2_width
  rw [slot_width_div h]
  exact pyInt_cast_mul _ 83 100 0.83 (by omega) (by norm_num) (by norm_num)

theorem font_size_div {S : ℤ} (h : 0 ≤ S) : font_size S = S / 5 := by
  simpa using pyInt_cast_mul S 1 5 0.2 h (by norm_num) (by norm_num)

theorem text_y_div {S : ℤ} (h : 0 ≤ S) :
    text_y S = wallet_y S + wallet_height S + 2 * S / 25 := by
  unfold text_y
  rw [pyInt_cast_mul S 2 25 0.08 h (by norm_num) (by norm_num)]
  norm_num

theorem shine_x_div {S : ℤ} (h : 0 ≤ S) : shine_x S = wallet_x S + S / 2 / 5 := by
  unfold shine_x
  rw [wallet_width_div h,
    pyInt_cast_mul (S / 2) 1 5 0.2 (by omega) (by norm_num) (by norm_num)]
  ring_nf

theorem shine_y_div {S : ℤ} (h : 0 ≤ S) :
    shine_y S = wallet_y S + 3 * (3 * S / 8) / 20 := by
  unfold shine_y
  rw [wallet_height_div h,
    pyInt_cast_mul (3 * S / 8) 3 20 0.15 (by omega) (by norm_num) (by norm_num)]
  norm_num

theorem shine_size_div {S : ℤ} (h : 0 ≤ S) : shine_size S = 3 * S / 25 :=
  pyInt_cast_mul S 3 25 0.12 h (by norm_num) (by norm_num)

theorem shine_extent_div {S : ℤ} (h : 0 ≤ S) :
    shine_extent S = 7 * (3 * S / 25) / 10 := by
  unfold shine_extent
  rw [shine_size_div h]
  exact pyInt_cast_mul _ 7 10 0.7 (by omega) (by norm_num) (by norm_num)

/-- Claim C1: running the batch exporter (mainExport, embedding main) against
an empty writable output directory writes exactly 7 PNG files, named
icon.png for the primary 1024 size and icon_WxH.png for each secondary
size, in list order, each with declared dimensions equal to the requested
size; the names are pairwise distinct. -/
theorem mainExport_writes_expected_artifacts (env : FontEnv) (m : Metrics) :
    mainExport env m = Except.ok specExpectedArtifacts ∧
    (specExpectedArtifacts.map Artifact.name).Nodup ∧
    specExpectedArtifacts.length = 7 :=
  ⟨rfl, by decide, rfl⟩

/-- Claim C2: for every supported size S at least 16, create_icon returns a
canvas whose pixel dimensions are exactly S by S. -/
theorem create_icon_returns_square_canvas (S : ℤ) (env : FontEnv) (m : Metrics)
    (h : 16 ≤ S) : renderedSize (create_icon S env m) = some (S, S) := by
  unfold renderedSize create_icon imageNew
  rw [if_neg (by omega)]
  rfl

/-- Witness for C2 at the primary size 1024. -/
theorem create_icon_returns_square_canvas_witness :
    renderedSize (create_icon 1024 noFontEnv zeroMetrics) = some (1024, 1024) :=
  create_icon_returns_square_canvas 1024 noFontEnv zeroMetrics (by norm_num)

/-- Claim C3: create_icon is deterministic. The only environment dependence
of the render is the font-resolution outcome: two invocations at the same
size whose font chains resolve identically produce identical canvases,
drawing command for drawing command; every geometric and colour value is a
function of the size alone. -/
theorem create_icon_deterministic (S : ℤ) (e1 e2 : FontEnv) (m : Metrics)
    (h : resolveFont e1 S = resolveFont e2 S) :
    create_icon S e1 m = create_icon S e2 m := by
  unfold create_icon iconCmds foregroundCmds text_x text_width
  rw [h]

/-- Witness for C3: two environments that both resolve the primary font. -/
theorem create_icon_deterministic_witness :
    create_icon 64 (FontEnv.mk true false) zeroMetrics =
    create_icon 64 (FontEnv.mk true true) zeroMetrics :=
  create_icon_deterministic 64 (FontEnv.mk true false) (FontEnv.mk true true)
    zeroMetrics rfl

/-- Counterexample for C6: at size zero, create_icon does not fail with an
invalid-argument error; it returns a degenerate empty 0 by 0 canvas. -/
theorem create_icon_zero_size_succeeds :
    renderedSize (create_icon 0 noFontEnv zeroMetrics) = some (0, 0) := rfl

/-- Amended C6: create_icon performs no size validation of its own. At size
zero it succeeds and returns a degenerate 0 by 0 canvas; for negative
sizes the failure that occurs is the imaging library constructor error,
not an invalid-argument check in the render routine. -/
theorem create_icon_no_size_validation (env : FontEnv) (m : Metrics) :
    renderedSize (create_icon 0 env m) = some (0, 0) ∧
    (∀ S : ℤ, S < 0 → create_icon S env m = Except.error pilSizeError) := by
  refine ⟨rfl, ?_⟩
  intro S hS
  unfold create_icon imageNew
  rw [if_pos hS]
  rfl

/-- Witness for amended C6 at sizes 0 and -1. -/
theorem create_icon_no_size_validation_witness :
    renderedSize (create_icon 0 noFontEnv zeroMetrics) = some (0, 0) ∧
    create_icon (-1) noFontEnv zeroMetrics = Except.error pilSizeError :=
  ⟨(create_icon_no_size_validation noFontEnv zeroMetrics).1,
   (create_icon_no_size_validation noFontEnv zeroMetrics).2 (-1) (by norm_num)⟩

/-- Claim C7: font resolution follows the three-tier fallback chain,
primary truetype path, then secondary, then the built-in default font, and
never causes the render to fail: the render succeeds for every ability
combination of the two paths, and the glyph is drawn with exactly the font
the chain produced. -/
theorem font_fallback_three_tier (S : ℤ) (env : FontEnv) (m : Metrics) :
    (env.primary = true → resolveFont env S = Font.truetypePrimary (font_size S)) ∧
    (env.primary = false → env.secondary = true →
      resolveFont env S = Font.truetypeSecondary (font_size S)) ∧
    (env.primary = false → env.secondary = false →
      resolveFont env S = Font.defaultFont) ∧
    (0 ≤ S → ∃ c, create_icon S env m = Except.ok c ∧
      DrawCmd.text (text_x S env m) (text_y S) "H" (99, 102, 241, 200)
        (resolveFont env S) ∈ c.cmds) := by
  refine ⟨fun h => by simp [resolveFont, h],
    fun h1 h2 => by simp [resolveFont, h1, h2],
    fun h1 h2 => by simp [resolveFont, h1, h2], fun hS => ?_⟩
  refine ⟨{ width := S, height := S, cmds := iconCmds S env m }, ?_, ?_⟩
  · unfold create_icon imageNew
    rw [if_neg (by omega)]
    rfl
  · simp [iconCmds, foregroundCmds]

/-- Witness for C7: only the secondary path loads, the render succeeds and
draws the glyph with the secondary font. -/
theorem font_fallback_three_tier_witness :
    resolveFont (FontEnv.mk false true) 1024 = Font.truetypeSecondary (font_size 1024) ∧
    ∃ c, create_icon 1024 (FontEnv.mk false true) zeroMetrics = Except.ok c ∧
      DrawCmd.text (text_x 1024 (FontEnv.mk false true) zeroMetrics) (text_y 1024) "H"
        (99, 102, 241, 200) (resolveFont (FontEnv.mk false true) 1024) ∈ c.cmds :=
  ⟨(font_fallback_three_tier 1024 (FontEnv.mk false true) zeroMetrics).2.1 rfl rfl,
   (font_fallback_three_tier 1024 (FontEnv.mk false true) zeroMetrics).2.2.2 (by norm_num)⟩

/-- Claim C10: when int(0.45 * size) is zero, that is for sizes 0, 1, 2, the
gradient loop is empty, so the render issues no gradient ring at all, while
the wallet, flap, seam, slots, glyph and shine draws (7 commands) still
execute and the render still returns a canvas rather than failing. -/
theorem tiny_size_renders_without_gradient (S : ℤ) (env : FontEnv) (m : Metrics)
    (h0 : 0 ≤ S) (h2 : S ≤ 2) :
    gradientCmds S = [] ∧ iconCmds S env m = foregroundCmds S env m ∧
    renderedSize (create_icon S env m) = some (S, S) ∧
    (foregroundCmds S env m).length = 7 := by
  have hr : radius S = 0 := by rw [radius_div h0]; omega
  have hg : gradientCmds S = [] := by
    unfold gradientCmds
    rw [hr]
    rfl
  refine ⟨hg, ?_, ?_, rfl⟩
  · unfold iconCmds
    rw [hg]
    rfl
  · unfold renderedSize create_icon imageNew
    rw [if_neg (by omega)]
    rfl

/-- Witness for C10 at size 1. -/
theorem tiny_size_renders_without_gradient_witness :
    gradientCmds 1 = [] ∧
    iconCmds 1 noFontEnv zeroMetrics = foregroundCmds 1 noFontEnv zeroMetrics ∧
    renderedSize (create_icon 1 noFontEnv zeroMetrics) = some (1, 1) ∧
    (foregroundCmds 1 noFontEnv zeroMetrics).length = 7 :=
  tiny_size_renders_without_gradient 1 noFontEnv zeroMetrics (by norm_num) (by norm_num)

/-- Claim C8: each gradient ring channel is the integer truncation of the
linear interpolation between C1 = (99, 102, 241) at the edge and
C2 = (139, 92, 246) toward the center at blend amount 1 - i / R, and the
outermost ring is coloured exactly (99, 102, 241). -/
theorem ring_colors_linear_interpolation (S i : ℤ) (h1 : 1 ≤ i) (h2 : i ≤ radius S) :
    (ringR S i = lerpChannel 99 139 (1 - ringFrac S i) ∧
     ringG S i = lerpChannel 102 92 (1 - ringFrac S i) ∧
     ringB S i = lerpChannel 241 246 (1 - ringFrac S i)) ∧
    ringR S (radius S) = 99 ∧ ringG S (radius S) = 102 ∧ ringB S (radius S) = 241 := by
  have hrad : (1 : ℤ) ≤ radius S := le_trans h1 h2
  have hne : (radius S : ℚ) ≠ 0 := by
    exact_mod_cast (by omega : (radius S : ℤ) ≠ 0)
  have hone : ringFrac S (radius S) = 1 := by
    unfold ringFrac
    exact div_self hne
  refine ⟨⟨?_, ?_, ?_⟩, ?_, ?_, ?_⟩
  · unfold ringR lerpChannel
    congr 1
    push_cast
    ring
  · unfold ringG lerpChannel
    congr 1
    push_cast
    ring
  · unfold ringB lerpChannel
    congr 1
    push_cast
    ring
  · unfold ringR
    rw [show (99 : ℚ) + (139 - 99) * (1 - ringFrac S (radius S)) = ((99 : ℤ) : ℚ) by
      rw [hone]; norm_num]
    exact pyInt_intCast 99
  · unfold ringG
    rw [show (102 : ℚ) + (92 - 102) * (1 - ringFrac S (radius S)) = ((102 : ℤ) : ℚ) by
      rw [hone]; norm_num]
    exact pyInt_intCast 102
  · unfold ringB
    rw [show (241 : ℚ) + (246 - 241) * (1 - ringFrac S (radius S)) = ((241 : ℤ) : ℚ) by
      rw [hone]; norm_num]
    exact pyInt_intCast 241

/-- Witness for C8 at the primary size, middle ring. -/
theorem ring_colors_linear_interpolation_witness :
    (ringR 1024 230 = lerpChannel 99 139 (1 - ringFrac 1024 230) ∧
     ringG 1024 230 = lerpChannel 102 92 (1 - ringFrac 1024 230) ∧
     ringB 1024 230 = lerpChannel 241 246 (1 - ringFrac 1024 230)) ∧
    ringR 1024 (radius 1024) = 99 ∧ ringG 1024 (radius 1024) = 102 ∧
    ringB 1024 (radius 1024) = 241 :=
  ring_colors_linear_interpolation 1024 230 (by norm_num)
    (by rw [radius_div (by norm_num)]; decide)

/-- Counterexample for C9: at size 19 the second card slot width deviates
from its exact linear proportion 0.375 * S by 1.125 pixels, more than the
claimed one-pixel tolerance, because two truncations compose. -/
theorem slot_width_deviates_more_than_one_pixel :
    ¬ (|(slot_width 19 : ℚ) - 0.375 * 19| ≤ 1) := by
  have hww : wallet_width 19 = 9 := by
    unfold wallet_width
    norm_num [pyInt]
    decide
  have hsw : slot_width 19 = 6 := by
    unfold slot_width
    rw [hww]
    norm_num [pyInt]
    decide
  rw [hsw]
  intro hcon
  rw [abs_le] at hcon
  linarith [hcon.1]

/-- Amended C9: wallet width and font size stay within one pixel of their
exact proportions 0.5 * S and 0.2 * S; the slot width stays within one
pixel of its immediate proportion 0.75 * wallet_width, and within two
pixels of the composed exact proportion 0.375 * S. -/
theorem element_sizes_scale_linearly (S : ℤ) (h : 0 ≤ S) :
    |(wallet_width S : ℚ) - 0.5 * S| < 1 ∧
    |(font_size S : ℚ) - 0.2 * S| < 1 ∧
    |(slot_width S : ℚ) - 0.75 * (wallet_width S : ℚ)| < 1 ∧
    |(slot_width S : ℚ) - 0.375 * S| < 2 := by
  have hSQ : (0 : ℚ) ≤ (S : ℚ) := by exact_mod_cast h
  have h1 : (0 : ℚ) ≤ (S : ℚ) * 0.5 := by positivity
  have h2 : (0 : ℚ) ≤ (S : ℚ) * 0.2 := by positivity
  unfold slot_width wallet_width font_size
  have hww := pyInt_le h1
  have hww' := sub_one_lt_pyInt h1
  have hfs := pyInt_le h2
  have hfs' := sub_one_lt_pyInt h2
  have hww0 : (0 : ℚ) ≤ ((pyInt ((S : ℚ) * 0.5) : ℤ) : ℚ) := by
    exact_mod_cast pyInt_nonneg h1
  have h3 : (0 : ℚ) ≤ ((pyInt ((S : ℚ) * 0.5) : ℤ) : ℚ) * 0.75 := by positivity
  have hsw := pyInt_le h3
  have hsw' := sub_one_lt_pyInt h3
  refine ⟨?_, ?_, ?_, ?_⟩ <;> rw [abs_sub_lt_iff] <;> constructor <;> linarith

/-- Witness for amended C9 at size 19, where the slot deviation is largest. -/
theorem element_sizes_scale_linearly_witness :
    |(wallet_width 19 : ℚ) - 0.5 * 19| < 1 ∧
    |(font_size 19 : ℚ) - 0.2 * 19| < 1 ∧
    |(slot_width 19 : ℚ) - 0.75 * (wallet_width 19 : ℚ)| < 1 ∧
    |(slot_width 19 : ℚ) - 0.375 * 19| < 2 :=
  element_sizes_scale_linearly 19 (by norm_num)

/-- Counterexample for C4: at size 1024 the gradient radius is 460, the
ramp threshold is 414, and ring indices 2 and 3 both truncate to alpha 1:
below the threshold the assigned alpha is not strictly increasing. -/
theorem ringAlpha_not_strictly_increasing :
    (2 : ℤ) < 3 ∧ (3 : ℚ) ≤ (radius 1024 : ℚ) * 0.9 ∧
    ringAlpha 1024 2 = 1 ∧ ringAlpha 1024 3 = 1 := by
  have hr : radius 1024 = 460 := by
    rw [radius_div (by norm_num)]
    decide
  refine ⟨by norm_num, by rw [hr]; norm_num, ?_, ?_⟩
  · unfold ringAlpha
    rw [hr, if_neg (by norm_num)]
    norm_num [pyInt]
    decide
  · unfold ringAlpha
    rw [hr, if_neg (by norm_num)]
    norm_num [pyInt]
    decide

/-- Amended C4: the gradient ring alpha is 255 above the 0.9 * R threshold,
is monotonically non-decreasing (not strictly increasing: truncation can
repeat values once R exceeds 283) below the threshold, and the ramp formula
yields 0 at ring index 0. -/
theorem ringAlpha_ramp (S : ℤ) (h0 : 0 ≤ S) :
    (∀ i : ℤ, (radius S : ℚ) * 0.9 < (i : ℚ) → ringAlpha S i = 255) ∧
    (∀ i j : ℤ, 0 ≤ i → i ≤ j → (j : ℚ) ≤ (radius S : ℚ) * 0.9 →
      ringAlpha S i ≤ ringAlpha S j) ∧
    ringAlpha S 0 = 0 := by
  have hradZ : (0 : ℤ) ≤ radius S := by
    apply pyInt_nonneg
    apply mul_nonneg _ (by norm_num)
    exact_mod_cast h0
  have hradQ : (0 : ℚ) ≤ (radius S : ℚ) := by exact_mod_cast hradZ
  have hD : (0 : ℚ) ≤ (radius S : ℚ) * 0.9 := mul_nonneg hradQ (by norm_num)
  refine ⟨fun i hi => if_pos hi, fun i j hi hij hj => ?_, ?_⟩
  · have hiq : (0 : ℚ) ≤ (i : ℚ) := by exact_mod_cast hi
    have hij' : (i : ℚ) ≤ (j : ℚ) := by exact_mod_cast hij
    unfold ringAlpha
    rw [if_neg (not_lt.mpr (le_trans hij' hj)), if_neg (not_lt.mpr hj)]
    apply pyInt_mono
    · exact mul_nonneg (by norm_num) (div_nonneg hiq hD)
    · apply mul_le_mul_of_nonneg_left _ (by norm_num : (0 : ℚ) ≤ 255)
      rw [div_eq_mul_inv, div_eq_mul_inv]
      exact mul_le_mul_of_nonneg_right hij' (inv_nonneg.mpr hD)
  · unfold ringAlpha
    rw [if_neg (not_lt.mpr (by exact_mod_cast hD))]
    rw [show (255 : ℚ) * (((0 : ℤ) : ℚ) / ((radius S : ℚ) * 0.9)) = ((0 : ℤ) : ℚ) by
      norm_num]
    exact pyInt_intCast 0

/-- Witness for amended C4 at size 1024: the saturated 255 branch above the
threshold, one non-decreasing step below it, and the zero base. -/
theorem ringAlpha_ramp_witness :
    ringAlpha 1024 415 = 255 ∧ ringAlpha 1024 2 ≤ ringAlpha 1024 3 ∧
    ringAlpha 1024 0 = 0 := by
  obtain ⟨ha, hb, hc⟩ := ringAlpha_ramp 1024 (by norm_num)
  refine ⟨ha 415 ?_, hb 2 3 (by norm_num) (by norm_num) ?_, hc⟩
  · rw [radius_div (by norm_num)]
    norm_num
  · rw [radius_div (by norm_num)]
    norm_num

/-- Counterexample for C5: at size 1024 the glyph anchor row is 836 and the
font size is 204, so the nominal glyph box of font-size height claimed to
stay inside the canvas reaches row 1040, past the bottom edge at 1024. -/
theorem glyph_box_bottom_exceeds_canvas :
    text_y 1024 = 836 ∧ font_size 1024 = 204 ∧
    ¬ (text_y 1024 + font_size 1024 ≤ 1024) := by
  have hty : text_y 1024 = 836 := by
    rw [text_y_div (by norm_num), wallet_y_div (by norm_num),
      wallet_height_div (by norm_num)]
    decide
  have hfs : font_size 1024 = 204 := by
    rw [font_size_div (by norm_num)]
    decide
  refine ⟨hty, hfs, ?_⟩
  rw [hty, hfs]
  norm_num

/-- Amended C5: for every size of at least 16 every drawing call other than
the glyph stays fully inside the canvas, the seam line even with a whole
stroke-width margin, and the glyph anchor row is inside the canvas; the
painted extent of the glyph itself depends on external font metrics and
its nominal font-size-tall box can cross the bottom edge (size 1024),
where the rasteriser clips it. -/
theorem icon_draw_calls_within_canvas (S : ℤ) (h16 : 16 ≤ S) (env : FontEnv)
    (m : Metrics) : ∀ cmd ∈ iconCmds S env m, cmdInBounds S cmd = true := by
  have h0 : (0 : ℤ) ≤ S := by omega
  intro cmd hcmd
  rw [iconCmds, List.mem_append] at hcmd
  rcases hcmd with hg | hf
  · unfold gradientCmds at hg
    obtain ⟨k, hk, hke⟩ := List.mem_map.mp hg
    rw [List.mem_range] at hk
    rw [← hke]
    have hr := radius_div h0
    have hc := center_div S
    simp only [ringCmd, cmdInBounds, coordOk, Bool.and_eq_true, decide_eq_true_eq]
    omega
  · have hww := wallet_width_div h0
    have hwh := wallet_height_div h0
    have hwx := wallet_x_div h0
    have hwy := wallet_y_div h0
    have hfr := flap_rise_div h0
    have hly := line_y_div h0
    have hlw := line_width_div h0
    have hsw := slot_width_div h0
    have hsh := slot_height_div h0
    have hsx := slot_x_div h0
    have hs1 := slot_y1_div h0
    have hs2 := slot_y2_div h0
    have hs2w := slot2_width_div h0
    have hty := text_y_div h0
    have hshx := shine_x_div h0
    have hshy := shine_y_div h0
    have hshs := shine_size_div h0
    have hshe := shine_extent_div h0
    have hc := center_div S
    simp only [foregroundCmds, List.mem_cons, List.not_mem_nil, or_false] at hf
    rcases hf with rfl | rfl | rfl | rfl | rfl | rfl | rfl <;>
      · simp only [cmdInBounds, coordOk, List.all_cons, List.all_nil, Bool.and_eq_true,
          decide_eq_true_eq, Bool.and_true, and_true]
        omega

/-- Witness for amended C5: the wallet body rectangle at size 16 is inside
the canvas. -/
theorem icon_draw_calls_within_canvas_witness :
    cmdInBounds 16 (DrawCmd.roundedRectangle (wallet_x 16) (wallet_y 16)
      (wallet_x 16 + wallet_width 16) (wallet_y 16 + wallet_height 16)
      (corner_radius 16) (255, 255, 255, 240)) = true :=
  icon_draw_calls_within_canvas 16 (by norm_num) noFontEnv zeroMetrics _
    (by simp [iconCmds, foregroundCmds])
